import Mathlib

/-!
Shallow embedding of the Elysia HTTP gateway (src/elysia/src/index.ts):
startup configuration, the middleware pipeline (security-header hook,
request/response logging hooks), the global error mapper, and the four
static routes.  Framework semantics used by the embedding, per the Elysia
lifecycle: onRequest hooks run for every request before route matching;
onAfterHandle hooks run, in registration order, only after a handler has
produced a value; when an error is raised (route not found, or a fault
during handling) the onError hook produces the response and the
onAfterHandle hooks are skipped.  Response headers assigned through
set.headers persist from onRequest into error responses.
-/

/-- Environment variables visible at process start; `none` is an absent
variable. -/
structure Env where
  PORT : Option String
  HOSTNAME : Option String
  NODE_ENV : Option String
  LOG_LEVEL : Option String

/-- JavaScript `process.env.X || d` for string-valued variables: an absent
variable (undefined) and the empty string are both falsy, so either falls
back to the default `d`. -/
def jsOr : Option String → String → String
  | none, d => d
  | some s, d => if s = "" then d else s

/-- JavaScript `parseInt(s)` at radix 10 on the inputs that arise here: an
optional sign followed by the leading run of decimal digits; `none` stands
for NaN.  (The hex-prefix and whitespace-trimming behaviours of `parseInt`
are not exercised by this program's defaults.) -/
def jsParseInt (s : String) : Option Int :=
  let cs := s.toList
  let signAndRest : Int × List Char :=
    match cs with
    | '-' :: t => (-1, t)
    | '+' :: t => (1, t)
    | t => (1, t)
  let ds := signAndRest.2.takeWhile Char.isDigit
  if ds.isEmpty then none
  else some (signAndRest.1 * (ds.foldl (fun a c => a * 10 + (c.toNat - 48)) 0 : Nat))

/-- The startup configuration record; `port = none` stands for NaN from
`parseInt`. -/
structure Config where
  port : Option Int
  hostname : String
  nodeEnv : String
  logLevel : String

/-- The `config` object built once at startup (index.ts lines 4-9). -/
def config (e : Env) : Config :=
  { port := jsParseInt (jsOr e.PORT "3000")
    hostname := jsOr e.HOSTNAME "0.0.0.0"
    nodeEnv := jsOr e.NODE_ENV "development"
    logLevel := jsOr e.LOG_LEVEL "info" }

/-- JSON values as produced by the gateway's handlers and the error mapper. -/
inductive Json where
  | str (s : String)
  | num (n : Int)
  | obj (fields : List (String × Json))

/-- Field lookup on a JSON object (none on non-objects or missing keys). -/
def Json.lookup : Json → String → Option Json
  | .obj fs, k => fs.lookup k
  | .str _, _ => none
  | .num _, _ => none

/-- Shape of `process.memoryUsage()`; `ext` models its `external` field. -/
structure MemoryUsage where
  rss : Nat
  heapTotal : Nat
  heapUsed : Nat
  ext : Nat
  arrayBuffers : Nat

/-- The memory-usage object serialised into the /metrics body. -/
def MemoryUsage.toJson (m : MemoryUsage) : Json :=
  .obj [("rss", .num (m.rss : Int)), ("heapTotal", .num (m.heapTotal : Int)),
        ("heapUsed", .num (m.heapUsed : Int)), ("external", .num (m.ext : Int)),
        ("arrayBuffers", .num (m.arrayBuffers : Int))]

/-- Per-request values supplied by the runtime: the UUID from
`crypto.randomUUID()`, the `Date.now()` readings at the onRequest hook and at
the response-logging hook (milliseconds since epoch, so non-negative),
`new Date().toISOString()`, `process.uptime()` (seconds the process has run;
the fractional part is immaterial to the claims), `process.memoryUsage()`,
and `process.version`. -/
structure RuntimeCtx where
  requestId : String
  startTime : Nat
  endTime : Nat
  nowIso : String
  uptime : Nat
  memory : MemoryUsage
  nodeVersion : String

/-- An incoming HTTP request: method, URL path, and the user-agent header. -/
structure Request where
  method : String
  path : String
  userAgent : Option String

/-- Elysia error codes that can reach the global onError hook. -/
inductive ErrorCode where
  | NOT_FOUND
  | VALIDATION
  | PARSE
  | INTERNAL_SERVER_ERROR
  | UNKNOWN
deriving DecidableEq

/-- The error value given to onError: its code and the error's message. -/
structure ErrValue where
  code : ErrorCode
  message : String

/-- The status/body mapping of the global onError hook (index.ts lines
82-126), after its error-level log: branches are tried in the order
NOT_FOUND, VALIDATION, INTERNAL_SERVER_ERROR, fallback. -/
def onErrorResult (c : Config) (e : ErrValue) (ts : String) : Nat × Json :=
  if e.code = ErrorCode.NOT_FOUND then
    (404, .obj [("error", .str "Not Found"),
                ("message", .str "The requested resource was not found"),
                ("timestamp", .str ts)])
  else if e.code = ErrorCode.VALIDATION then
    (400, .obj [("error", .str "Validation Error"),
                ("message", .str e.message),
                ("timestamp", .str ts)])
  else if e.code = ErrorCode.INTERNAL_SERVER_ERROR then
    (500, .obj [("error", .str "Internal Server Error"),
                ("message", .str (if c.nodeEnv = "production"
                                  then "An unexpected error occurred"
                                  else e.message)),
                ("timestamp", .str ts)])
  else
    (500, .obj [("error", .str "Error"),
                ("message", .str (if c.nodeEnv = "production"
                                  then "An error occurred processing your request"
                                  else e.message)),
                ("timestamp", .str ts)])

/-- Headers appended by the security-header onAfterHandle hook (index.ts
lines 43-53). -/
def securityHeaders (c : Config) : List (String × String) :=
  [("X-Content-Type-Options", "nosniff"),
   ("X-Frame-Options", "DENY"),
   ("X-XSS-Protection", "1; mode=block"),
   ("Referrer-Policy", "strict-origin-when-cross-origin"),
   ("Permissions-Policy", "geolocation=(), microphone=(), camera=()")]
  ++ (if c.nodeEnv = "production"
      then [("Strict-Transport-Security", "max-age=31536000; includeSubDomains")]
      else [])

/-- The four registered routes. -/
inductive Route where
  | health
  | ready
  | metrics
  | root
deriving DecidableEq

/-- The method/path pairs of the route table. -/
def routeTable : List (String × String) :=
  [("GET", "/health"), ("GET", "/ready"), ("GET", "/metrics"), ("GET", "/")]

/-- Route matching: an exact method+path match against the registered
routes; anything else raises NOT_FOUND. -/
def matchRoute (method path : String) : Option Route :=
  if method = "GET" ∧ path = "/health" then some .health
  else if method = "GET" ∧ path = "/ready" then some .ready
  else if method = "GET" ∧ path = "/metrics" then some .metrics
  else if method = "GET" ∧ path = "/" then some .root
  else none

/-- The static landing page returned by GET / ; the spec treats its contents
as an opaque static asset, so the model keeps a stand-in string. -/
def landingPage : String := "<!DOCTYPE html> (static landing page)"

/-- Route handler bodies (index.ts lines 129-148 and the root route). -/
def handlerBody : Route → Config → RuntimeCtx → Json
  | .health, c, ctx =>
      .obj [("status", .str "healthy"), ("timestamp", .str ctx.nowIso),
            ("uptime", .num (ctx.uptime : Int)), ("environment", .str c.nodeEnv)]
  | .ready, _, ctx =>
      .obj [("status", .str "ready"), ("timestamp", .str ctx.nowIso)]
  | .metrics, _, ctx =>
      .obj [("timestamp", .str ctx.nowIso), ("uptime", .num (ctx.uptime : Int)),
            ("memory", ctx.memory.toJson), ("nodeVersion", .str ctx.nodeVersion)]
  | .root, _, _ => .str landingPage

/-- One structured log line emitted while serving a request. -/
inductive LogEntry where
  | incoming (method url : String) (userAgent : Option String)
  | completed (method url : String) (statusCode : Nat) (durationMs : Int)
  | requestError (code : ErrorCode) (errMessage : String) (method url : String)

/-- The `message` field of a log line. -/
def LogEntry.message : LogEntry → String
  | .incoming .. => "Incoming request"
  | .completed .. => "Request completed"
  | .requestError .. => "Request error"

/-- The `level` field of a log line. -/
def LogEntry.level : LogEntry → String
  | .incoming .. => "info"
  | .completed .. => "info"
  | .requestError .. => "error"

/-- The numeric duration carried by a "Request completed" line (0 for the
other kinds, which carry none). -/
def LogEntry.durationVal : LogEntry → Int
  | .completed _ _ _ d => d
  | .incoming .. => 0
  | .requestError .. => 0

/-- How many log lines carry the given message. -/
def countMsg (logs : List LogEntry) (m : String) : Nat :=
  logs.countP (fun l => l.message == m)

/-- An HTTP response: status, headers in insertion order, body. -/
structure Response where
  status : Nat
  headers : List (String × String)
  body : Json

/-- Everything one request produces: its single response and its log lines
in emission order. -/
structure Outcome where
  response : Response
  logs : List LogEntry

/-- The whole per-request pipeline.  onRequest sets X-Request-ID and logs
"Incoming request" before routing.  On a route match with no fault the
handler body is produced, then the security-header hook appends its headers,
then the response-logging hook computes `Date.now() - (_startTime ||
Date.now())` (`_startTime` is falsy only when it is 0) and logs "Request
completed" with the current status (the default 200, never reassigned on
this path).  On no match, or on a fault injected during handling, onError
logs "Request error" and produces the mapped status/body; the onAfterHandle
hooks do not run, so neither the security headers nor the completion log
appear. -/
def processRequest (c : Config) (ctx : RuntimeCtx) (req : Request)
    (fault : Option ErrValue) : Outcome :=
  let requestHeaders := [("X-Request-ID", ctx.requestId)]
  let incomingLog := LogEntry.incoming req.method req.path req.userAgent
  let errorOutcome : ErrValue → Outcome := fun e =>
    let mapped := onErrorResult c e ctx.nowIso
    { response := { status := mapped.1, headers := requestHeaders, body := mapped.2 }
      logs := [incomingLog, .requestError e.code e.message req.method req.path] }
  match matchRoute req.method req.path with
  | none => errorOutcome ⟨ErrorCode.NOT_FOUND, "NOT_FOUND"⟩
  | some r =>
    match fault with
    | some e => errorOutcome e
    | none =>
      let body := handlerBody r c ctx
      let start : Nat := if ctx.startTime = 0 then ctx.endTime else ctx.startTime
      let duration : Int := (ctx.endTime : Int) - (start : Int)
      { response := { status := 200
                      headers := requestHeaders ++ securityHeaders c
                      body := body }
        logs := [incomingLog, .completed req.method req.path 200 duration] }

/-! Concrete fixtures used by counterexamples and witnesses. -/

/-- An empty environment: every variable absent. -/
def envDev : Env := ⟨none, none, none, none⟩

/-- The startup configuration in the default (development) environment. -/
def cfgDev : Config := config envDev

/-- An environment with NODE_ENV set to production. -/
def envProd : Env := ⟨none, none, some "production", none⟩

/-- The startup configuration in the production environment. -/
def cfgProd : Config := config envProd

/-- A concrete memory-usage sample. -/
def mem0 : MemoryUsage := ⟨1000, 500, 300, 20, 10⟩

/-- A concrete per-request runtime context. -/
def ctx0 : RuntimeCtx :=
  ⟨"uuid-0001", 100, 105, "2026-10-12T00:00:00.000Z", 42, mem0, "v22.6.0"⟩

/-- A method/path pair outside the route table is matched by no route. -/
theorem matchRoute_eq_none (m p : String) (h : (m, p) ∉ routeTable) :
    matchRoute m p = none := by
  simp only [routeTable, List.mem_cons, List.not_mem_nil, or_false, Prod.mk.injEq,
    not_or] at h
  unfold matchRoute
  split_ifs <;> tauto

/-- C3: every method/path pair outside the route table {GET /, GET /health,
GET /ready, GET /metrics} yields a 404 response whose JSON body has error
"Not Found", the fixed message "The requested resource was not found", and a
timestamp field. -/
theorem notFound_envelope (c : Config) (ctx : RuntimeCtx) (req : Request)
    (fault : Option ErrValue) (h : (req.method, req.path) ∉ routeTable) :
    (processRequest c ctx req fault).response.status = 404 ∧
    (processRequest c ctx req fault).response.body.lookup "error" =
      some (.str "Not Found") ∧
    (processRequest c ctx req fault).response.body.lookup "message" =
      some (.str "The requested resource was not found") ∧
    (processRequest c ctx req fault).response.body.lookup "timestamp" =
      some (.str ctx.nowIso) := by
  have hm : matchRoute req.method req.path = none := matchRoute_eq_none _ _ h
  simp [processRequest, hm, onErrorResult, Json.lookup, List.lookup]

/-- Witness for C3 at the concrete unmatched request GET /nope. -/
theorem notFound_envelope_witness :
    ("GET", "/nope") ∉ routeTable ∧
    (processRequest cfgDev ctx0 ⟨"GET", "/nope", none⟩ none).response.status = 404 ∧
    (processRequest cfgDev ctx0 ⟨"GET", "/nope", none⟩ none).response.body.lookup "error" =
      some (.str "Not Found") ∧
    (processRequest cfgDev ctx0 ⟨"GET", "/nope", none⟩ none).response.body.lookup "message" =
      some (.str "The requested resource was not found") ∧
    (processRequest cfgDev ctx0 ⟨"GET", "/nope", none⟩ none).response.body.lookup "timestamp" =
      some (.str ctx0.nowIso) :=
  ⟨by decide, notFound_envelope cfgDev ctx0 ⟨"GET", "/nope", none⟩ none (by decide)⟩

/-- C6: GET /health always yields status 200 with body fields status
"healthy", a non-negative numeric uptime, a timestamp, and environment equal
to the configured environment. -/
theorem health_route_ok (c : Config) (ctx : RuntimeCtx) (ua : Option String) :
    (processRequest c ctx ⟨"GET", "/health", ua⟩ none).response.status = 200 ∧
    (processRequest c ctx ⟨"GET", "/health", ua⟩ none).response.body.lookup "status" =
      some (.str "healthy") ∧
    (processRequest c ctx ⟨"GET", "/health", ua⟩ none).response.body.lookup "uptime" =
      some (.num (ctx.uptime : Int)) ∧
    0 ≤ (ctx.uptime : Int) ∧
    (processRequest c ctx ⟨"GET", "/health", ua⟩ none).response.body.lookup "timestamp" =
      some (.str ctx.nowIso) ∧
    (processRequest c ctx ⟨"GET", "/health", ua⟩ none).response.body.lookup "environment" =
      some (.str c.nodeEnv) := by
  refine ⟨rfl, rfl, rfl, Int.natCast_nonneg _, rfl, rfl⟩

/-- Counterexample for C7: the /metrics body has no field named
runtimeVersion; the runtime-version string is under the key nodeVersion. -/
theorem metrics_runtimeVersion_absent :
    (processRequest cfgDev ctx0 ⟨"GET", "/metrics", none⟩ none).response.status = 200 ∧
    (processRequest cfgDev ctx0 ⟨"GET", "/metrics", none⟩ none).response.body.lookup
      "runtimeVersion" = none ∧
    (processRequest cfgDev ctx0 ⟨"GET", "/metrics", none⟩ none).response.body.lookup
      "nodeVersion" = some (.str "v22.6.0") :=
  ⟨rfl, rfl, rfl⟩

/-- C7 (amended): GET /metrics yields status 200 with a timestamp, a numeric
uptime, the memory-usage object, and the runtime-version string under the
key nodeVersion, non-empty whenever the runtime supplies a non-empty version
string. -/
theorem metrics_route_ok (c : Config) (ctx : RuntimeCtx) (ua : Option String)
    (h : ctx.nodeVersion ≠ "") :
    (processRequest c ctx ⟨"GET", "/metrics", ua⟩ none).response.status = 200 ∧
    (processRequest c ctx ⟨"GET", "/metrics", ua⟩ none).response.body.lookup "timestamp" =
      some (.str ctx.nowIso) ∧
    (processRequest c ctx ⟨"GET", "/metrics", ua⟩ none).response.body.lookup "uptime" =
      some (.num (ctx.uptime : Int)) ∧
    (processRequest c ctx ⟨"GET", "/metrics", ua⟩ none).response.body.lookup "memory" =
      some ctx.memory.toJson ∧
    (processRequest c ctx ⟨"GET", "/metrics", ua⟩ none).response.body.lookup "nodeVersion" =
      some (.str ctx.nodeVersion) ∧
    ctx.nodeVersion ≠ "" := by
  exact ⟨rfl, rfl, rfl, rfl, rfl, h⟩

/-- Witness for C7 (amended) at a concrete /metrics request. -/
theorem metrics_route_ok_witness :
    ctx0.nodeVersion ≠ "" ∧
    (processRequest cfgDev ctx0 ⟨"GET", "/metrics", none⟩ none).response.body.lookup
      "nodeVersion" = some (.str ctx0.nodeVersion) :=
  ⟨by decide, (metrics_route_ok cfgDev ctx0 none (by decide)).2.2.2.2.1⟩

/-- C9: every response, on the success path and on the error path alike,
carries an X-Request-ID header equal to the identifier generated by
crypto.randomUUID() at the onRequest stage, which runs before route
matching. -/
theorem xRequestId_on_every_response (c : Config) (ctx : RuntimeCtx)
    (req : Request) (fault : Option ErrValue) :
    (processRequest c ctx req fault).response.headers.lookup "X-Request-ID" =
      some ctx.requestId := by
  unfold processRequest
  cases matchRoute req.method req.path with
  | none => rfl
  | some r => cases fault with
    | none => rfl
    | some e => rfl

/-- Counterexample for C1: in production, the error-mapped 404 response for
GET /nope carries neither the X-Content-Type-Options header nor the
Strict-Transport-Security header, because the security-header hook is an
onAfterHandle hook and does not run on the error path. -/
theorem securityHeaders_missing_on_404 :
    (processRequest cfgProd ctx0 ⟨"GET", "/nope", none⟩ none).response.status = 404 ∧
    (processRequest cfgProd ctx0 ⟨"GET", "/nope", none⟩ none).response.headers.lookup
      "X-Content-Type-Options" = none ∧
    (processRequest cfgProd ctx0 ⟨"GET", "/nope", none⟩ none).response.headers.lookup
      "Strict-Transport-Security" = none ∧
    cfgProd.nodeEnv = "production" :=
  ⟨rfl, rfl, rfl, rfl⟩

/-- C1 (amended): every successfully handled response carries the five fixed
security headers, and among those responses Strict-Transport-Security is
present (with value max-age=31536000; includeSubDomains) iff the configured
environment is production; error-mapped responses do not carry these
headers. -/
theorem securityHeaders_on_success (c : Config) (ctx : RuntimeCtx)
    (req : Request) (r : Route) (h : matchRoute req.method req.path = some r) :
    (processRequest c ctx req none).response.headers.lookup "X-Content-Type-Options" =
      some "nosniff" ∧
    (processRequest c ctx req none).response.headers.lookup "X-Frame-Options" =
      some "DENY" ∧
    (processRequest c ctx req none).response.headers.lookup "X-XSS-Protection" =
      some "1; mode=block" ∧
    (processRequest c ctx req none).response.headers.lookup "Referrer-Policy" =
      some "strict-origin-when-cross-origin" ∧
    (processRequest c ctx req none).response.headers.lookup "Permissions-Policy" =
      some "geolocation=(), microphone=(), camera=()" ∧
    ((processRequest c ctx req none).response.headers.lookup "Strict-Transport-Security" =
        some "max-age=31536000; includeSubDomains" ↔ c.nodeEnv = "production") ∧
    (∀ req2 : Request, matchRoute req2.method req2.path = none →
      (processRequest c ctx req2 none).response.headers.lookup "X-Content-Type-Options" =
        none) := by
  refine ⟨?_, ?_, ?_, ?_, ?_, ?_, ?_⟩
  · simp [processRequest, h, securityHeaders, List.lookup]
  · simp [processRequest, h, securityHeaders, List.lookup]
  · simp [processRequest, h, securityHeaders, List.lookup]
  · simp [processRequest, h, securityHeaders, List.lookup]
  · simp [processRequest, h, securityHeaders, List.lookup]
  · by_cases hp : c.nodeEnv = "production" <;>
      simp [processRequest, h, securityHeaders, List.lookup, hp]
  · intro req2 h2
    simp [processRequest, h2, List.lookup]

/-- Witness for C1 (amended) at the concrete request GET /health in
production, plus the error-path conjunct at GET /nope. -/
theorem securityHeaders_on_success_witness :
    matchRoute "GET" "/health" = some Route.health ∧
    (processRequest cfgProd ctx0 ⟨"GET", "/health", none⟩ none).response.headers.lookup
      "X-Content-Type-Options" = some "nosniff" ∧
    ((processRequest cfgProd ctx0 ⟨"GET", "/health", none⟩ none).response.headers.lookup
      "Strict-Transport-Security" = some "max-age=31536000; includeSubDomains" ↔
        cfgProd.nodeEnv = "production") ∧
    (processRequest cfgProd ctx0 ⟨"GET", "/nope", none⟩ none).response.headers.lookup
      "X-Content-Type-Options" = none :=
  ⟨by decide,
   (securityHeaders_on_success cfgProd ctx0 ⟨"GET", "/health", none⟩ Route.health
      (by decide)).1,
   (securityHeaders_on_success cfgProd ctx0 ⟨"GET", "/health", none⟩ Route.health
      (by decide)).2.2.2.2.2.1,
   (securityHeaders_on_success cfgProd ctx0 ⟨"GET", "/health", none⟩ Route.health
      (by decide)).2.2.2.2.2.2 ⟨"GET", "/nope", none⟩ (by decide)⟩

/-- Counterexample for C2: the error-mapped request GET /nope produces no
"Request completed" log line at all (the response-logging hook is an
onAfterHandle hook, skipped on the error path); it gets a "Request error"
line instead. -/
theorem completedLog_missing_on_404 :
    (processRequest cfgDev ctx0 ⟨"GET", "/nope", none⟩ none).response.status = 404 ∧
    countMsg (processRequest cfgDev ctx0 ⟨"GET", "/nope", none⟩ none).logs
      "Incoming request" = 1 ∧
    countMsg (processRequest cfgDev ctx0 ⟨"GET", "/nope", none⟩ none).logs
      "Request completed" = 0 ∧
    countMsg (processRequest cfgDev ctx0 ⟨"GET", "/nope", none⟩ none).logs
      "Request error" = 1 :=
  ⟨rfl, rfl, rfl, rfl⟩

/-- C2 (amended): every request produces exactly one response (the single
Outcome.response) and exactly one "Incoming request" log line, and every
logged duration is non-negative provided the clock does not run backwards
between the two Date.now() readings; a successfully handled request
additionally produces exactly one "Request completed" line, while an
error-mapped request produces none of those and exactly one "Request error"
line instead. -/
theorem request_logging (c : Config) (ctx : RuntimeCtx) (req : Request)
    (fault : Option ErrValue) (h : ctx.startTime ≤ ctx.endTime) :
    countMsg (processRequest c ctx req fault).logs "Incoming request" = 1 ∧
    (∀ l ∈ (processRequest c ctx req fault).logs, 0 ≤ l.durationVal) ∧
    ((matchRoute req.method req.path).isSome ∧ fault = none →
      countMsg (processRequest c ctx req fault).logs "Request completed" = 1) ∧
    (¬((matchRoute req.method req.path).isSome ∧ fault = none) →
      countMsg (processRequest c ctx req fault).logs "Request completed" = 0 ∧
      countMsg (processRequest c ctx req fault).logs "Request error" = 1) := by
  cases hm : matchRoute req.method req.path with
  | none =>
    simp [processRequest, hm, countMsg, LogEntry.message, LogEntry.durationVal]
  | some r =>
    cases fault with
    | some e =>
      simp [processRequest, hm, countMsg, LogEntry.message, LogEntry.durationVal]
    | none =>
      refine ⟨?_, ?_, ?_, ?_⟩
      · simp [processRequest, hm, countMsg, LogEntry.message]
      · intro l hl
        simp only [processRequest, hm, List.mem_cons, List.not_mem_nil,
          or_false] at hl
        rcases hl with h1 | h1
        · simp [h1, LogEntry.durationVal]
        · subst h1
          simp only [LogEntry.durationVal]
          split_ifs with h0 <;> omega
      · intro _
        simp [processRequest, hm, countMsg, LogEntry.message]
      · intro hcon
        exact absurd ⟨by simp [hm], rfl⟩ hcon

/-- Witness for C2 (amended): concrete evaluations on both the handled
request GET /ready and the error-mapped request GET /nope. -/
theorem request_logging_witness :
    ctx0.startTime ≤ ctx0.endTime ∧
    countMsg (processRequest cfgDev ctx0 ⟨"GET", "/ready", none⟩ none).logs
      "Incoming request" = 1 ∧
    countMsg (processRequest cfgDev ctx0 ⟨"GET", "/ready", none⟩ none).logs
      "Request completed" = 1 ∧
    countMsg (processRequest cfgDev ctx0 ⟨"GET", "/nope", none⟩ none).logs
      "Request completed" = 0 ∧
    countMsg (processRequest cfgDev ctx0 ⟨"GET", "/nope", none⟩ none).logs
      "Request error" = 1 :=
  ⟨by decide,
   (request_logging cfgDev ctx0 ⟨"GET", "/ready", none⟩ none (by decide)).1,
   (request_logging cfgDev ctx0 ⟨"GET", "/ready", none⟩ none (by decide)).2.2.1
     ⟨by decide, rfl⟩,
   ((request_logging cfgDev ctx0 ⟨"GET", "/nope", none⟩ none (by decide)).2.2.2
     (by intro hc; exact absurd hc.1 (by decide))).1,
   ((request_logging cfgDev ctx0 ⟨"GET", "/nope", none⟩ none (by decide)).2.2.2
     (by intro hc; exact absurd hc.1 (by decide))).2⟩

/-- C4: a fault carrying the INTERNAL_SERVER_ERROR code raised during
handling of a matched route yields status 500 with error "Internal Server
Error", whose message is the fault's own message outside production and the
fixed string "An unexpected error occurred" in production. -/
theorem internalFault_mapping (c : Config) (ctx : RuntimeCtx) (req : Request)
    (r : Route) (e : ErrValue) (hr : matchRoute req.method req.path = some r)
    (he : e.code = ErrorCode.INTERNAL_SERVER_ERROR) :
    (processRequest c ctx req (some e)).response.status = 500 ∧
    (processRequest c ctx req (some e)).response.body.lookup "error" =
      some (.str "Internal Server Error") ∧
    (processRequest c ctx req (some e)).response.body.lookup "message" =
      some (.str (if c.nodeEnv = "production" then "An unexpected error occurred"
                  else e.message)) ∧
    (processRequest c ctx req (some e)).response.body.lookup "timestamp" =
      some (.str ctx.nowIso) := by
  simp [processRequest, hr, onErrorResult, he, Json.lookup, List.lookup]

/-- Witness for C4: a concrete internal fault on GET /health, once under the
production configuration and once under the development one. -/
theorem internalFault_mapping_witness :
    matchRoute "GET" "/health" = some Route.health ∧
    (processRequest cfgProd ctx0 ⟨"GET", "/health", none⟩
        (some ⟨ErrorCode.INTERNAL_SERVER_ERROR, "disk on fire"⟩)).response.body.lookup
      "message" = some (.str (if cfgProd.nodeEnv = "production"
                              then "An unexpected error occurred"
                              else "disk on fire")) ∧
    (processRequest cfgDev ctx0 ⟨"GET", "/health", none⟩
        (some ⟨ErrorCode.INTERNAL_SERVER_ERROR, "disk on fire"⟩)).response.body.lookup
      "message" = some (.str (if cfgDev.nodeEnv = "production"
                              then "An unexpected error occurred"
                              else "disk on fire")) :=
  ⟨by decide,
   (internalFault_mapping cfgProd ctx0 ⟨"GET", "/health", none⟩ Route.health
      ⟨ErrorCode.INTERNAL_SERVER_ERROR, "disk on fire"⟩ (by decide) rfl).2.2.1,
   (internalFault_mapping cfgDev ctx0 ⟨"GET", "/health", none⟩ Route.health
      ⟨ErrorCode.INTERNAL_SERVER_ERROR, "disk on fire"⟩ (by decide) rfl).2.2.1⟩

/-- C5: the error mapper tries its branches in the order NOT_FOUND,
VALIDATION, INTERNAL_SERVER_ERROR, fallback; a validation failure yields
status 400 with error "Validation Error" and the underlying validation
message, with no environment condition (shown in production too). -/
theorem errorMapper_priority (c : Config) (e : ErrValue) (ts : String) :
    (e.code = ErrorCode.NOT_FOUND →
      (onErrorResult c e ts).1 = 404 ∧
      (onErrorResult c e ts).2.lookup "error" = some (.str "Not Found")) ∧
    (e.code = ErrorCode.VALIDATION →
      (onErrorResult c e ts).1 = 400 ∧
      (onErrorResult c e ts).2.lookup "error" = some (.str "Validation Error") ∧
      (onErrorResult c e ts).2.lookup "message" = some (.str e.message)) ∧
    (e.code = ErrorCode.INTERNAL_SERVER_ERROR →
      (onErrorResult c e ts).1 = 500 ∧
      (onErrorResult c e ts).2.lookup "error" =
        some (.str "Internal Server Error")) ∧
    (e.code ≠ ErrorCode.NOT_FOUND → e.code ≠ ErrorCode.VALIDATION →
      e.code ≠ ErrorCode.INTERNAL_SERVER_ERROR →
      (onErrorResult c e ts).1 = 500 ∧
      (onErrorResult c e ts).2.lookup "error" = some (.str "Error")) := by
  cases he : e.code <;>
    simp [onErrorResult, he, Json.lookup, List.lookup]

/-- Witness for C5: a concrete validation failure mapped under the
production configuration still exposes the underlying validation message. -/
theorem errorMapper_priority_witness :
    (onErrorResult cfgProd ⟨ErrorCode.VALIDATION, "bad input"⟩ "T0").1 = 400 ∧
    (onErrorResult cfgProd ⟨ErrorCode.VALIDATION, "bad input"⟩ "T0").2.lookup
      "error" = some (.str "Validation Error") ∧
    (onErrorResult cfgProd ⟨ErrorCode.VALIDATION, "bad input"⟩ "T0").2.lookup
      "message" = some (.str "bad input") :=
  (errorMapper_priority cfgProd ⟨ErrorCode.VALIDATION, "bad input"⟩ "T0").2.1 rfl

/-- C10: in production, a condition reaching the fallback branch (none of
NOT_FOUND, VALIDATION, INTERNAL_SERVER_ERROR) is mapped to status 500 with
error "Error" and the fixed message "An error occurred processing your
request", which differs from the internal-error path's production message
"An unexpected error occurred" for the same underlying fault text. -/
theorem fallback_production_message (c : Config) (e : ErrValue) (ts : String)
    (hp : c.nodeEnv = "production") (h1 : e.code ≠ ErrorCode.NOT_FOUND)
    (h2 : e.code ≠ ErrorCode.VALIDATION)
    (h3 : e.code ≠ ErrorCode.INTERNAL_SERVER_ERROR) :
    (onErrorResult c e ts).1 = 500 ∧
    (onErrorResult c e ts).2.lookup "error" = some (.str "Error") ∧
    (onErrorResult c e ts).2.lookup "message" =
      some (.str "An error occurred processing your request") ∧
    (onErrorResult c ⟨ErrorCode.INTERNAL_SERVER_ERROR, e.message⟩ ts).2.lookup
      "message" = some (.str "An unexpected error occurred") ∧
    "An error occurred processing your request" ≠ "An unexpected error occurred" := by
  refine ⟨?_, ?_, ?_, ?_, by decide⟩ <;>
    simp [onErrorResult, h1, h2, h3, hp, Json.lookup, List.lookup]

/-- Witness for C10: a concrete UNKNOWN-coded condition in production. -/
theorem fallback_production_message_witness :
    cfgProd.nodeEnv = "production" ∧
    (onErrorResult cfgProd ⟨ErrorCode.UNKNOWN, "boom"⟩ "T0").2.lookup "message" =
      some (.str "An error occurred processing your request") ∧
    (onErrorResult cfgProd ⟨ErrorCode.INTERNAL_SERVER_ERROR, "boom"⟩ "T0").2.lookup
      "message" = some (.str "An unexpected error occurred") :=
  ⟨by decide,
   (fallback_production_message cfgProd ⟨ErrorCode.UNKNOWN, "boom"⟩ "T0" rfl
      (by decide) (by decide) (by decide)).2.2.1,
   (fallback_production_message cfgProd ⟨ErrorCode.UNKNOWN, "boom"⟩ "T0" rfl
      (by decide) (by decide) (by decide)).2.2.2.1⟩

/-- Counterexample for C8: a present-but-empty variable is falsy under the
JavaScript || operator, so its value is not used: with PORT set to the empty
string the port is the default 3000 rather than parseInt of the supplied
value (NaN), and with NODE_ENV set to the empty string the environment is
the default "development" rather than the supplied empty string. -/
theorem config_empty_value_counterexample :
    (config ⟨some "", none, none, none⟩).port = some 3000 ∧
    jsParseInt "" = none ∧
    (config ⟨none, none, some "", none⟩).nodeEnv = "development" :=
  ⟨rfl, by decide, rfl⟩

/-- C8 (amended): the startup configuration uses the defaults port 3000,
hostname "0.0.0.0", environment "development" and log level "info" when the
corresponding environment variable is absent or empty; a present non-empty
value is used instead (PORT after parseInt, the others verbatim). -/
theorem config_defaults_and_overrides (e : Env) :
    ((e.PORT = none ∨ e.PORT = some "") → (config e).port = some 3000) ∧
    (∀ s, e.PORT = some s → s ≠ "" → (config e).port = jsParseInt s) ∧
    ((e.HOSTNAME = none ∨ e.HOSTNAME = some "") →
      (config e).hostname = "0.0.0.0") ∧
    (∀ s, e.HOSTNAME = some s → s ≠ "" → (config e).hostname = s) ∧
    ((e.NODE_ENV = none ∨ e.NODE_ENV = some "") →
      (config e).nodeEnv = "development") ∧
    (∀ s, e.NODE_ENV = some s → s ≠ "" → (config e).nodeEnv = s) ∧
    ((e.LOG_LEVEL = none ∨ e.LOG_LEVEL = some "") →
      (config e).logLevel = "info") ∧
    (∀ s, e.LOG_LEVEL = some s → s ≠ "" → (config e).logLevel = s) := by
  have h3000 : jsParseInt "3000" = some 3000 := by decide
  refine ⟨?_, ?_, ?_, ?_, ?_, ?_, ?_, ?_⟩
  · rintro (h | h) <;> simp [config, jsOr, h, h3000]
  · rintro s h hs
    simp [config, jsOr, h, hs]
  · rintro (h | h) <;> simp [config, jsOr, h]
  · rintro s h hs
    simp [config, jsOr, h, hs]
  · rintro (h | h) <;> simp [config, jsOr, h]
  · rintro s h hs
    simp [config, jsOr, h, hs]
  · rintro (h | h) <;> simp [config, jsOr, h]
  · rintro s h hs
    simp [config, jsOr, h, hs]

/-- Witness for C8 (amended): the all-absent environment yields every
default, and a fully populated environment yields every supplied value. -/
theorem config_defaults_and_overrides_witness :
    (config envDev).port = some 3000 ∧
    (config envDev).hostname = "0.0.0.0" ∧
    (config envDev).nodeEnv = "development" ∧
    (config envDev).logLevel = "info" ∧
    (config ⟨some "8080", some "example.org", some "production", some "debug"⟩).port =
      jsParseInt "8080" ∧
    (config ⟨some "8080", some "example.org", some "production", some "debug"⟩).hostname =
      "example.org" ∧
    (config ⟨some "8080", some "example.org", some "production", some "debug"⟩).nodeEnv =
      "production" ∧
    (config ⟨some "8080", some "example.org", some "production", some "debug"⟩).logLevel =
      "debug" :=
  ⟨(config_defaults_and_overrides envDev).1 (Or.inl rfl),
   (config_defaults_and_overrides envDev).2.2.1 (Or.inl rfl),
   (config_defaults_and_overrides envDev).2.2.2.2.1 (Or.inl rfl),
   (config_defaults_and_overrides envDev).2.2.2.2.2.2.1 (Or.inl rfl),
   (config_defaults_and_overrides
      ⟨some "8080", some "example.org", some "production", some "debug"⟩).2.1
     "8080" rfl (by decide),
   (config_defaults_and_overrides
      ⟨some "8080", some "example.org", some "production", some "debug"⟩).2.2.2.1
     "example.org" rfl (by decide),
   (config_defaults_and_overrides
      ⟨some "8080", some "example.org", some "production", some "debug"⟩).2.2.2.2.2.1
     "production" rfl (by decide),
   (config_defaults_and_overrides
      ⟨some "8080", some "example.org", some "production", some "debug"⟩).2.2.2.2.2.2.2
     "debug" rfl (by decide)⟩
